import Mathlib

/-!
Verification development for the Artemis smart-home API gateway.

The Go sources are shallowly embedded: each handler or client method
becomes a pure Lean function from its decoded inputs (HTTP method,
decoded request body, outcome of the upstream exchange) to the response
it writes. JSON values decoded by encoding/json into interface values
are modelled by the JVal type; JSON numbers are modelled as exact
rationals, and the Go conversion int(f), which truncates toward zero,
is modelled by goInt. Network transmission is abstracted into explicit
parameters: client methods return the payload they would send (or a
validation error issued before any call), and handlers receive the
outcome of the upstream exchange as an argument.
-/

namespace Artemis

/-- JSON values as decoded by encoding/json into interface values.
Objects are association lists with distinct keys; numbers are exact
rationals (Go decodes every JSON number into a float64; the numbers
appearing in this development are exactly representable). -/
inductive JVal where
  | null : JVal
  | bool : Bool → JVal
  | num : ℚ → JVal
  | str : String → JVal
  | obj : List (String × JVal) → JVal

/-- Lookup of a key in a decoded JSON object (Go map indexing; keys in
a decoded object are distinct, so first match is map semantics). -/
def jlookup : List (String × JVal) → String → Option JVal
  | [], _ => none
  | (k, v) :: rest, key => if k = key then some v else jlookup rest key

/-- HTTP methods relevant to the handlers. -/
inductive Method where
  | get : Method
  | post : Method
  | put : Method
  | delete : Method
deriving DecidableEq

/-- Go conversion int(f) applied to a decoded JSON number: conversion
from float64 to int truncates toward zero. On an exact rational this is
the truncating division of the numerator by the denominator. -/
def goInt (q : ℚ) : ℤ := q.num.tdiv q.den

/-- Outcome of one upstream HTTP exchange: transport failure (DNS
failure, connection refused, timeout), body read failure, or a status
code together with the decoded body. -/
inductive HTTPResult (α : Type) where
  | netErr : String → HTTPResult α
  | readErr : String → HTTPResult α
  | response : ℕ → α → HTTPResult α

namespace govee

/-- RGB color payload for the color command (govee/models.go ColorValue). -/
structure ColorValue where
  R : ℤ
  G : ℤ
  B : ℤ
deriving DecidableEq

/-- Value field of a Govee control command: the Go code passes an
interface value that is a string for turn, an int for brightness, or a
ColorValue for color (govee/models.go ControlCommand.Value). -/
inductive CmdValue where
  | str : String → CmdValue
  | int : ℤ → CmdValue
  | color : ColorValue → CmdValue
deriving DecidableEq

/-- Command name and value (govee/models.go ControlCommand). -/
structure ControlCommand where
  Name : String
  Value : CmdValue
deriving DecidableEq

/-- Payload of PUT /v1/devices/control (govee/models.go ControlRequest). -/
structure ControlRequest where
  Device : String
  Model : String
  Cmd : ControlCommand
deriving DecidableEq

/-- A Govee device as returned by GET /v1/devices (govee/models.go Device). -/
structure Device where
  Device : String
  Model : String
  DeviceName : String
  Controllable : Bool
  Retrievable : Bool
  SupportCmds : List String

/-- Client.sendControlCommand (govee client): builds the control
payload sent upstream. The transmission itself is abstracted, so the
client methods below return either a validation error or the payload
that is sent. -/
def sendControlCommand (deviceID model cmdName : String) (value : CmdValue) : ControlRequest :=
  { Device := deviceID, Model := model, Cmd := { Name := cmdName, Value := value } }

/-- Client.TurnOn: sends the turn command with value on (no validation). -/
def TurnOn (deviceID model : String) : ControlRequest :=
  sendControlCommand deviceID model "turn" (CmdValue.str "on")

/-- Client.TurnOff: sends the turn command with value off. -/
def TurnOff (deviceID model : String) : ControlRequest :=
  sendControlCommand deviceID model "turn" (CmdValue.str "off")

/-- Client.SetBrightness: validates the level before building the
control payload; an out-of-range level yields an error and nothing is
sent upstream. -/
def SetBrightness (deviceID model : String) (level : ℤ) : Except String ControlRequest :=
  if level < 0 ∨ 100 < level then
    Except.error ("brightness must be between 0 and 100, got " ++ toString level)
  else
    Except.ok (sendControlCommand deviceID model "brightness" (CmdValue.int level))

/-- Client.SetColor: validates every channel before building the payload. -/
def SetColor (deviceID model : String) (r g b : ℤ) : Except String ControlRequest :=
  if r < 0 ∨ 255 < r ∨ g < 0 ∨ 255 < g ∨ b < 0 ∨ 255 < b then
    Except.error ("RGB values must be between 0 and 255, got R=" ++ toString r ++
      " G=" ++ toString g ++ " B=" ++ toString b)
  else
    Except.ok (sendControlCommand deviceID model "color" (CmdValue.color { R := r, G := g, B := b }))

/-- Upstream calls issued by a client method outcome: none when the
validation failed, the single control payload otherwise. -/
def issuedCalls : Except String ControlRequest → List ControlRequest
  | Except.error _ => []
  | Except.ok payload => [payload]

end govee

namespace camera

/-- Stream endpoint URLs for one camera (camera/models.go StreamURLs). -/
structure StreamURLs where
  HLS : String
  RTSP : String
  WebRTC : String

/-- A camera as returned to the frontend (camera/models.go Camera). -/
structure Camera where
  Name : String
  NameURI : String
  Model : String
  Status : String
  Enabled : Bool
  StreamURL : String
  Streams : StreamURLs

/-- Raw camera entry fields parsed from the bridge response
(camera/models.go BridgeCameraInfo); fields missing from the JSON parse
are zero values. -/
structure BridgeCameraInfo where
  NameURI : String
  Nickname : String
  ModelName : String
  ProductModel : String
  Connected : Bool
  Enabled : Bool

/-- Fixed HLS port (camera/client.go constants). -/
def hlsPort : String := "8888"

/-- Fixed RTSP port. -/
def rtspPort : String := "8554"

/-- Fixed WebRTC port. -/
def webrtcPort : String := "8889"

/-- Go condition m, ok := generic[key].(string); ok and m nonempty,
used by the model fallbacks of parseCameraEntry. -/
def stringField (generic : List (String × JVal)) (key : String) : Option String :=
  match jlookup generic key with
  | some (JVal.str s) => if s = "" then none else some s
  | _ => none

/-- Client.parseCameraEntry: transforms one raw bridge entry into a
Camera. The Go code unmarshals the same raw bytes twice, into a
BridgeCameraInfo and into a generic map used for fallback fields; the
embedding receives both parse results. The stream URLs are a pure
function of the bridge host, the URL-safe name and the fixed ports. -/
def parseCameraEntry (nameURI : String) (info : BridgeCameraInfo)
    (generic : List (String × JVal)) (bridgeHost : String) : Camera :=
  let displayName := if info.Nickname = "" then nameURI else info.Nickname
  let model0 := if info.ModelName = "" then info.ProductModel else info.ModelName
  let model :=
    if model0 = "" then
      match stringField generic "model_name" with
      | some m => m
      | none =>
        match stringField generic "product_model" with
        | some m => m
        | none => "Wyze Camera"
    else model0
  let uri := if info.NameURI = "" then nameURI else info.NameURI
  let connected :=
    if info.Connected then info.Connected
    else
      match jlookup generic "connected" with
      | some (JVal.bool c) => c
      | _ => info.Connected
  let enabled :=
    if info.Enabled then info.Enabled
    else
      match jlookup generic "enabled" with
      | some (JVal.bool e) => e
      | _ => info.Enabled
  let status := if connected && enabled then "online" else "offline"
  let streams : StreamURLs :=
    { HLS := "http://" ++ bridgeHost ++ ":" ++ hlsPort ++ "/" ++ uri ++ "/stream.m3u8"
      RTSP := "rtsp://" ++ bridgeHost ++ ":" ++ rtspPort ++ "/" ++ uri
      WebRTC := "http://" ++ bridgeHost ++ ":" ++ webrtcPort ++ "/" ++ uri ++ "/" }
  { Name := displayName, NameURI := uri, Model := model, Status := status,
    Enabled := enabled, StreamURL := streams.HLS, Streams := streams }

/-- Client.GetCamera: fetches one camera by URL-safe name. Every
failure, transport failures included, is reported as a plain error
string, so the caller cannot distinguish an absent camera from an
unreachable bridge except by the message text. -/
def GetCamera (nameURI bridgeHost : String)
    (out : HTTPResult (BridgeCameraInfo × List (String × JVal))) : Except String Camera :=
  match out with
  | HTTPResult.netErr cause => Except.error ("failed to reach Wyze Bridge: " ++ cause)
  | HTTPResult.readErr cause => Except.error ("failed to read bridge response: " ++ cause)
  | HTTPResult.response status body =>
    if status = 404 then Except.error ("camera \x27" ++ nameURI ++ "\x27 not found")
    else if status ≠ 200 then
      Except.error ("bridge returned status " ++ toString status ++ " for camera \x27" ++ nameURI ++ "\x27")
    else Except.ok (parseCameraEntry nameURI body.1 body.2 bridgeHost)

/-- Client.GetCameras: fetches all cameras. The Go code iterates a
decoded map; the embedding receives the entries as a list (one order of
the map iteration). The raw body text interpolated into the non-200
error message is elided. -/
def GetCameras (bridgeHost : String)
    (out : HTTPResult (List (String × BridgeCameraInfo × List (String × JVal)))) :
    Except String (List Camera) :=
  match out with
  | HTTPResult.netErr cause =>
    Except.error ("failed to reach Wyze Bridge at " ++ bridgeHost ++ ": " ++ cause)
  | HTTPResult.readErr cause => Except.error ("failed to read bridge response: " ++ cause)
  | HTTPResult.response status entries =>
    if status ≠ 200 then Except.error ("bridge returned status " ++ toString status)
    else Except.ok (entries.map fun e => parseCameraEntry e.1 e.2.1 e.2.2 bridgeHost)

end camera

namespace firetv

/-- Pair payload sent to the Python service (firetv/models.go
PairRequest); a JSON-absent pin decodes to the empty string. -/
structure PairRequest where
  Host : String
  PIN : String
deriving DecidableEq

/-- The two client pairing operations (firetv/client.go): records which
one the gateway invokes, with its arguments. StartPairing posts only
the host (phase 1); FinishPairing posts host and PIN (phase 2). -/
inductive ClientPairCall where
  | StartPairing : String → ClientPairCall
  | FinishPairing : String → String → ClientPairCall
deriving DecidableEq

/-- Payload each pairing call posts to the Python service via
sendPairRequest (firetv/client.go StartPairing and FinishPairing). -/
def pairPayload : ClientPairCall → PairRequest
  | ClientPairCall.StartPairing host => { Host := host, PIN := "" }
  | ClientPairCall.FinishPairing host pin => { Host := host, PIN := pin }

end firetv

namespace handlers

/-- Simplified device sent to the frontend (handlers/govee.go
DeviceResponse). -/
structure DeviceResponse where
  ID : String
  Name : String
  Model : String
  «Type» : String
  Capabilities : List String
  APIKeyIndex : ℕ

/-- Decoded body of POST /api/govee/devices/control (handlers/govee.go
ControlRequest): the value field is an undecoded interface value. -/
structure ControlRequest where
  DeviceID : String
  Model : String
  Command : String
  Value : JVal
  APIKeyIndex : ℤ

/-- Decoded body of POST /api/lightbulb/toggle (handlers/lightbulb.go
LightbulbToggleRequest). -/
structure LightbulbToggleRequest where
  IsOn : Bool

/-- Decoded body of POST /api/firetv/pair (handlers/firetv.go
FireTVPairRequest); a missing pin field decodes to the empty string. -/
structure FireTVPairRequest where
  Host : String
  PIN : String
deriving DecidableEq

/-- Decoding of the pair JSON payload by encoding/json: an absent pin
field is left at its zero value, the empty string. -/
def decodePairPayload (host : String) (pinField : Option String) : FireTVPairRequest :=
  { Host := host, PIN := pinField.getD "" }

/-- Bodies the gateway writes. The text constructor is the bare
text/plain body written by http.Error; the JSON constructors carry the
fields of the corresponding Go response structs (wall-clock timestamp
fields are omitted from the embedding). -/
inductive ResponseBody where
  | text : String → ResponseBody
  | controlJSON : Bool → String → String → ResponseBody
  | lightbulbJSON : Bool → String → Bool → ResponseBody
  | devicesJSON : List DeviceResponse → ResponseBody
  | stateJSON : String → Bool → ResponseBody
  | camerasJSON : Bool → List camera.Camera → String → ResponseBody
  | streamJSON : Bool → String → String → String → String → camera.StreamURLs → String → ResponseBody
  | pairJSON : Bool → String → String → Bool → ResponseBody
  | commandJSON : Bool → String → String → ResponseBody

/-- Whether a body is a JSON object carrying the boolean success flag
and message string envelope. Bare text bodies, the bare device array
and the bare state object are not envelopes. -/
def bodyHasEnvelope : ResponseBody → Bool
  | ResponseBody.text _ => false
  | ResponseBody.devicesJSON _ => false
  | ResponseBody.stateJSON _ _ => false
  | _ => true

/-- One HTTP response: status code and body. -/
structure Response where
  status : ℕ
  body : ResponseBody

/-- The Go helper http.Error: writes a bare text/plain error body with
the given status. -/
def httpError (message : String) (code : ℕ) : Response :=
  { status := code, body := ResponseBody.text message }

/-- sendErrorResponse (handlers/govee.go): JSON envelope error, always
written with status 400. -/
def sendErrorResponse (deviceID message : String) : Response :=
  { status := 400, body := ResponseBody.controlJSON false message deviceID }

/-- The adapter operation HandleControlDevice selects, with its
arguments (handlers/govee.go lines 145-194). -/
inductive ClientCall where
  | turnOn : String → String → ClientCall
  | turnOff : String → String → ClientCall
  | setBrightness : String → String → ℤ → ClientCall
  | setColor : String → String → ℤ → ℤ → ℤ → ClientCall
deriving DecidableEq

/-- Routing outcome: an error response short-circuits with no adapter
call; otherwise exactly one client method is invoked. -/
inductive RouteOutcome where
  | reject : String → RouteOutcome
  | invoke : ClientCall → RouteOutcome
deriving DecidableEq

/-- Command routing of HandleControlDevice (handlers/govee.go lines
134-194): API key index validation, then dispatch on the command
string with a type check of the decoded value (Go type assertions).
Numeric values pass through the Go int conversion, truncating toward
zero. -/
def routeControl (req : ControlRequest) (numClients : ℕ) : RouteOutcome :=
  if req.APIKeyIndex < 0 ∨ (numClients : ℤ) ≤ req.APIKeyIndex then
    RouteOutcome.reject "Invalid API key index"
  else
    match req.Command with
    | "turn" =>
      match req.Value with
      | JVal.bool b =>
        RouteOutcome.invoke
          (if b then ClientCall.turnOn req.DeviceID req.Model
           else ClientCall.turnOff req.DeviceID req.Model)
      | _ => RouteOutcome.reject "Invalid value for \x27turn\x27 command - expected boolean"
    | "brightness" =>
      match req.Value with
      | JVal.num q =>
        RouteOutcome.invoke (ClientCall.setBrightness req.DeviceID req.Model (goInt q))
      | _ => RouteOutcome.reject "Invalid value for \x27brightness\x27 command - expected number"
    | "color" =>
      match req.Value with
      | JVal.obj colorMap =>
        match jlookup colorMap "r", jlookup colorMap "g", jlookup colorMap "b" with
        | some (JVal.num r), some (JVal.num g), some (JVal.num b) =>
          RouteOutcome.invoke
            (ClientCall.setColor req.DeviceID req.Model (goInt r) (goInt g) (goInt b))
        | _, _, _ => RouteOutcome.reject "Color object must have r, g, b numeric fields"
      | _ => RouteOutcome.reject "Invalid value for \x27color\x27 command - expected object with r, g, b"
    | _ => RouteOutcome.reject ("Unknown command: " ++ req.Command)

/-- Executes the selected client method against an abstract network
(outcome of the upstream exchange per control payload). A validation
error inside the client returns before the network is consulted. -/
def runClientCall (net : govee.ControlRequest → Except String Unit) : ClientCall → Except String Unit
  | ClientCall.turnOn d m => net (govee.TurnOn d m)
  | ClientCall.turnOff d m => net (govee.TurnOff d m)
  | ClientCall.setBrightness d m level =>
    match govee.SetBrightness d m level with
    | Except.error e => Except.error e
    | Except.ok payload => net payload
  | ClientCall.setColor d m r g b =>
    match govee.SetColor d m r g b with
    | Except.error e => Except.error e
    | Except.ok payload => net payload

/-- HandleControlDevice (handlers/govee.go): request to response. -/
def HandleControlDevice (numClients : ℕ) (net : govee.ControlRequest → Except String Unit)
    (method : Method) (decoded : Except String ControlRequest) : Response :=
  if method ≠ Method.post then httpError "Method not allowed" 405
  else
    match decoded with
    | Except.error _ => httpError "Invalid request body" 400
    | Except.ok req =>
      match routeControl req numClients with
      | RouteOutcome.reject msg => sendErrorResponse req.DeviceID msg
      | RouteOutcome.invoke call =>
        match runClientCall net call with
        | Except.error e => sendErrorResponse req.DeviceID e
        | Except.ok _ =>
          { status := 200,
            body := ResponseBody.controlJSON true "Device controlled successfully" req.DeviceID }

/-- HandleLightbulbToggle (handlers/lightbulb.go). -/
def HandleLightbulbToggle (method : Method) (decoded : Except String LightbulbToggleRequest) : Response :=
  if method ≠ Method.post then httpError "Method not allowed" 405
  else
    match decoded with
    | Except.error _ => httpError "Invalid request body" 400
    | Except.ok req =>
      { status := 200,
        body := ResponseBody.lightbulbJSON true "Lightbulb state updated successfully" req.IsOn }

/-- Transformation of one Govee device, tagged with the index of the
API key that returned it (handlers/govee.go lines 81-90). -/
def toDeviceResponse (apiKeyIndex : ℕ) (d : govee.Device) : DeviceResponse :=
  { ID := d.Device, Name := d.DeviceName, Model := d.Model, «Type» := "light",
    Capabilities := d.SupportCmds, APIKeyIndex := apiKeyIndex }

/-- Aggregation loop of HandleGetDevices (handlers/govee.go lines
70-91): one GetDevices outcome per configured client, visited in
configuration order starting at the given index; a failing account is
skipped and the remaining accounts are still visited. -/
def collectDevices (apiKeyIndex : ℕ) :
    List (Except String (List govee.Device)) → List DeviceResponse
  | [] => []
  | Except.error _ :: rest => collectDevices (apiKeyIndex + 1) rest
  | Except.ok devices :: rest =>
    devices.map (toDeviceResponse apiKeyIndex) ++ collectDevices (apiKeyIndex + 1) rest

/-- HandleGetDevices (handlers/govee.go): aggregates devices across all
accounts; the response is always 200 with the merged list, an empty
merge included. -/
def HandleGetDevices (method : Method)
    (results : List (Except String (List govee.Device))) : Response :=
  if method ≠ Method.get then httpError "Method not allowed" 405
  else { status := 200, body := ResponseBody.devicesJSON (collectDevices 0 results) }

/-- State extraction loop of HandleGetDeviceState (handlers/govee.go
lines 293-309): scans the upstream property maps in order; the first
map holding a boolean online value or a string powerState value
decides the result (online is checked before powerState within a map)
and stops the scan; false if no map holds either. -/
def extractIsOn : List (List (String × JVal)) → Bool
  | [] => false
  | prop :: rest =>
    match jlookup prop "online" with
    | some (JVal.bool b) => b
    | _ =>
      match jlookup prop "powerState" with
      | some (JVal.str s) => s == "on"
      | _ => extractIsOn rest

/-- sendCameraError (handlers/camera.go): JSON envelope error with an
empty camera list and the caller-chosen status. -/
def sendCameraError (statusCode : ℕ) (message : String) : Response :=
  { status := statusCode, body := ResponseBody.camerasJSON false [] message }

/-- formatCameraCountMessage (handlers/camera.go). -/
def formatCameraCountMessage (count : ℕ) : String :=
  if count = 0 then "No cameras found. Make sure Wyze Bridge is running and cameras are connected."
  else if count = 1 then "Found 1 camera"
  else "Found " ++ toString count ++ " cameras"

/-- HandleGetCameras (handlers/camera.go): any GetCameras failure, an
unreachable bridge included, becomes a 500 envelope error. -/
def HandleGetCameras (bridgeHost : String) (method : Method)
    (out : HTTPResult (List (String × camera.BridgeCameraInfo × List (String × JVal)))) : Response :=
  if method ≠ Method.get then httpError "Method not allowed" 405
  else
    match camera.GetCameras bridgeHost out with
    | Except.error e => sendCameraError 500 ("Failed to fetch cameras: " ++ e)
    | Except.ok cameras =>
      { status := 200,
        body := ResponseBody.camerasJSON true cameras (formatCameraCountMessage cameras.length) }

/-- HandleGetCameraStream (handlers/camera.go): any GetCamera failure,
an unreachable bridge included, becomes a 404 envelope error. -/
def HandleGetCameraStream (bridgeHost : String) (method : Method) (nameURI : String)
    (out : HTTPResult (camera.BridgeCameraInfo × List (String × JVal))) : Response :=
  if method ≠ Method.get then httpError "Method not allowed" 405
  else if nameURI = "" then sendCameraError 400 "Missing required \x27name\x27 query parameter"
  else
    match camera.GetCamera nameURI bridgeHost out with
    | Except.error e => sendCameraError 404 ("Camera not found: " ++ e)
    | Except.ok cam =>
      let statusMsg :=
        if cam.Status = "offline" then "Camera is offline — stream may not be available"
        else "Camera is online and streaming"
      { status := 200,
        body := ResponseBody.streamJSON true cam.Name cam.NameURI cam.Status cam.StreamURL
          cam.Streams statusMsg }

/-- sendFireTVError (handlers/firetv.go): JSON envelope error reusing
the command response shape with an empty command field. -/
def sendFireTVError (statusCode : ℕ) (message : String) : Response :=
  { status := statusCode, body := ResponseBody.commandJSON false message "" }

/-- Outcome of HandleFireTVPair up to the adapter boundary: either a
response written without consulting the adapter, or the single client
pairing call the gateway makes. The gateway holds no pairing state:
the outcome is a function of the one decoded request alone. -/
inductive PairOutcome where
  | respond : Response → PairOutcome
  | callAdapter : firetv.ClientPairCall → PairOutcome

/-- HandleFireTVPair (handlers/firetv.go lines 96-155): an empty pin
selects StartPairing (phase 1), a non-empty pin selects FinishPairing
(phase 2). -/
def HandleFireTVPair (method : Method) (decoded : Except String FireTVPairRequest) : PairOutcome :=
  if method ≠ Method.post then PairOutcome.respond (httpError "Method not allowed" 405)
  else
    match decoded with
    | Except.error _ => PairOutcome.respond (httpError "Invalid request body" 400)
    | Except.ok req =>
      if req.Host = "" then PairOutcome.respond (sendFireTVError 400 "host is required")
      else if req.PIN = "" then
        PairOutcome.callAdapter (firetv.ClientPairCall.StartPairing req.Host)
      else PairOutcome.callAdapter (firetv.ClientPairCall.FinishPairing req.Host req.PIN)

/-- Whether the pair outcome reaches the phase-2 FinishPairing path. -/
def reachesPhase2 : PairOutcome → Bool
  | PairOutcome.callAdapter (firetv.ClientPairCall.FinishPairing _ _) => true
  | _ => false

end handlers

/-- Reading of the state-extraction sentence of the spec and of claim
C2, written from the claim text for comparison with extractIsOn: the
scan returns on equal to true as soon as it finds a property map
holding a true boolean online value or a powerState string equal,
case-sensitively, to on; false when the scan exhausts the list. -/
def claimStateSpec : List (List (String × JVal)) → Bool
  | [] => false
  | prop :: rest =>
    if (match jlookup prop "online" with
        | some (JVal.bool true) => true
        | _ => false)
       || (match jlookup prop "powerState" with
           | some (JVal.str s) => s == "on"
           | _ => false)
    then true
    else claimStateSpec rest

/-- Verdict of one property map in the state extraction: the boolean
online value when present, else whether a powerState string equals on,
else none. Used to state the first-hit characterization of
extractIsOn. -/
def propVerdict (prop : List (String × JVal)) : Option Bool :=
  match jlookup prop "online" with
  | some (JVal.bool b) => some b
  | _ =>
    match jlookup prop "powerState" with
    | some (JVal.str s) => some (s == "on")
    | _ => none

/-- The Go int conversion is truncation toward zero: floor for
nonnegative values, ceiling for negative ones. -/
theorem goInt_eq_trunc (q : ℚ) : goInt q = if q < 0 then ⌈q⌉ else ⌊q⌋ := by
  rcases le_or_lt 0 q with h | h
  · rw [if_neg (not_lt.mpr h), goInt,
      Int.tdiv_eq_ediv (Rat.num_nonneg.mpr h) (Int.ofNat_nonneg _), Rat.floor_def]
  · have hnum : q.num < 0 := by
      by_contra hc
      push_neg at hc
      exact absurd (Rat.num_nonneg.mp hc) (not_le.mpr h)
    have hkey : goInt q = -((-q.num).tdiv (q.den : ℤ)) := by
      rw [goInt, Int.neg_tdiv, neg_neg]
    rw [if_pos h, hkey, Int.tdiv_eq_ediv (by omega) (Int.ofNat_nonneg _)]
    have hceil : (⌈q⌉ : ℤ) = -⌊-q⌋ := by rw [Int.floor_neg, neg_neg]
    rw [hceil, Rat.floor_def, Rat.neg_num, Rat.neg_den]

/-- The state-extraction loop computes the verdict of the first
property map that has one, defaulting to false. -/
theorem extractIsOn_findSome (l : List (List (String × JVal))) :
    handlers.extractIsOn l = (List.findSome? propVerdict l).getD false := by
  induction l with
  | nil => rfl
  | cons prop rest ih =>
    cases h1 : jlookup prop "online" with
    | none =>
      cases h2 : jlookup prop "powerState" with
      | none => simp [handlers.extractIsOn, List.findSome?_cons, propVerdict, h1, h2, ih]
      | some v2 =>
        cases v2 <;> simp [handlers.extractIsOn, List.findSome?_cons, propVerdict, h1, h2, ih]
    | some v1 =>
      cases v1 with
      | bool b => simp [handlers.extractIsOn, List.findSome?_cons, propVerdict, h1]
      | null =>
        cases h2 : jlookup prop "powerState" with
        | none => simp [handlers.extractIsOn, List.findSome?_cons, propVerdict, h1, h2, ih]
        | some v2 =>
          cases v2 <;> simp [handlers.extractIsOn, List.findSome?_cons, propVerdict, h1, h2, ih]
      | num q =>
        cases h2 : jlookup prop "powerState" with
        | none => simp [handlers.extractIsOn, List.findSome?_cons, propVerdict, h1, h2, ih]
        | some v2 =>
          cases v2 <;> simp [handlers.extractIsOn, List.findSome?_cons, propVerdict, h1, h2, ih]
      | str s =>
        cases h2 : jlookup prop "powerState" with
        | none => simp [handlers.extractIsOn, List.findSome?_cons, propVerdict, h1, h2, ih]
        | some v2 =>
          cases v2 <;> simp [handlers.extractIsOn, List.findSome?_cons, propVerdict, h1, h2, ih]
      | obj fields =>
        cases h2 : jlookup prop "powerState" with
        | none => simp [handlers.extractIsOn, List.findSome?_cons, propVerdict, h1, h2, ih]
        | some v2 =>
          cases v2 <;> simp [handlers.extractIsOn, List.findSome?_cons, propVerdict, h1, h2, ih]

/-- The aggregation loop equals the flattened per-account contributions
paired with their configuration indices. -/
theorem collectDevices_enumFrom (i : ℕ) (rs : List (Except String (List govee.Device))) :
    handlers.collectDevices i rs
      = ((rs.enumFrom i).map fun p =>
          match p.2 with
          | Except.ok ds => ds.map (handlers.toDeviceResponse p.1)
          | Except.error _ => []).flatten := by
  induction rs generalizing i with
  | nil => rfl
  | cons r rest ih =>
    cases r with
    | error e => simp [handlers.collectDevices, List.enumFrom_cons, ih]
    | ok ds => simp [handlers.collectDevices, List.enumFrom_cons, ih]

/-- Claim C5: for every brightness level outside 0 to 100, SetBrightness
fails with the out-of-range error and issues no upstream call; for every
level inside the range the check passes and the control command payload
is sent upstream. -/
theorem claim_c5_brightness_range (deviceID model : String) (level : ℤ) :
    ((level < 0 ∨ 100 < level) →
      govee.SetBrightness deviceID model level
        = Except.error ("brightness must be between 0 and 100, got " ++ toString level)
      ∧ govee.issuedCalls (govee.SetBrightness deviceID model level) = [])
    ∧ ((0 ≤ level ∧ level ≤ 100) →
      govee.SetBrightness deviceID model level
        = Except.ok (govee.sendControlCommand deviceID model "brightness" (govee.CmdValue.int level))
      ∧ govee.issuedCalls (govee.SetBrightness deviceID model level)
          = [govee.sendControlCommand deviceID model "brightness" (govee.CmdValue.int level)]) := by
  constructor
  · intro h
    rw [govee.SetBrightness, if_pos h]
    exact ⟨rfl, rfl⟩
  · intro h
    rw [govee.SetBrightness, if_neg (by omega)]
    exact ⟨rfl, rfl⟩

/-- Witness for claim C5 at levels 101 and 50. -/
theorem claim_c5_witness :
    govee.SetBrightness "AA:BB:CC:DD:EE:FF:00:11" "H6159" 101
      = Except.error ("brightness must be between 0 and 100, got " ++ toString (101 : ℤ))
    ∧ govee.issuedCalls (govee.SetBrightness "AA:BB:CC:DD:EE:FF:00:11" "H6159" 101) = []
    ∧ govee.SetBrightness "AA:BB:CC:DD:EE:FF:00:11" "H6159" 50
      = Except.ok (govee.sendControlCommand "AA:BB:CC:DD:EE:FF:00:11" "H6159" "brightness"
          (govee.CmdValue.int 50)) :=
  ⟨((claim_c5_brightness_range "AA:BB:CC:DD:EE:FF:00:11" "H6159" 101).1 (Or.inr (by norm_num))).1,
   ((claim_c5_brightness_range "AA:BB:CC:DD:EE:FF:00:11" "H6159" 101).1 (Or.inr (by norm_num))).2,
   ((claim_c5_brightness_range "AA:BB:CC:DD:EE:FF:00:11" "H6159" 50).2 ⟨by norm_num, by norm_num⟩).1⟩

/-- Claim C6 counterexample: a request whose command is not in the
known set but whose apiKeyIndex is out of range fails with the invalid
index error, not with the unsupported-command error the claim
promises. -/
theorem claim_c6_counterexample :
    handlers.routeControl
        { DeviceID := "AA", Model := "H6159", Command := "blink",
          Value := JVal.bool true, APIKeyIndex := 5 } 1
      = handlers.RouteOutcome.reject "Invalid API key index"
    ∧ "Invalid API key index" ≠ "Unknown command: " ++ "blink" :=
  ⟨rfl, by decide⟩

/-- Claim C6 amended: for every control request with a valid
apiKeyIndex whose command is not exactly turn, brightness or color, the
router rejects with the unknown-command error; with any apiKeyIndex,
valid or not, an unknown command never invokes an adapter operation. -/
theorem claim_c6_unknown_command (req : handlers.ControlRequest) (numClients : ℕ)
    (h1 : req.Command ≠ "turn") (h2 : req.Command ≠ "brightness") (h3 : req.Command ≠ "color") :
    ((0 ≤ req.APIKeyIndex ∧ req.APIKeyIndex < (numClients : ℤ)) →
      handlers.routeControl req numClients
        = handlers.RouteOutcome.reject ("Unknown command: " ++ req.Command))
    ∧ ∀ call, handlers.routeControl req numClients ≠ handlers.RouteOutcome.invoke call := by
  constructor
  · intro hidx
    have hguard : ¬(req.APIKeyIndex < 0 ∨ (numClients : ℤ) ≤ req.APIKeyIndex) := by omega
    rw [handlers.routeControl, if_neg hguard]
    split <;> simp_all
  · intro call hcall
    by_cases hguard : req.APIKeyIndex < 0 ∨ (numClients : ℤ) ≤ req.APIKeyIndex
    · rw [handlers.routeControl, if_pos hguard] at hcall
      exact absurd hcall (by simp)
    · rw [handlers.routeControl, if_neg hguard] at hcall
      split at hcall <;> simp_all

/-- Witness for the amended claim C6 at command blink with a valid
index. -/
theorem claim_c6_witness :
    handlers.routeControl
        { DeviceID := "AA", Model := "H6159", Command := "blink",
          Value := JVal.bool true, APIKeyIndex := 0 } 1
      = handlers.RouteOutcome.reject ("Unknown command: " ++ "blink") :=
  (claim_c6_unknown_command
    { DeviceID := "AA", Model := "H6159", Command := "blink",
      Value := JVal.bool true, APIKeyIndex := 0 } 1
    (by decide) (by decide) (by decide)).1 ⟨by norm_num, by norm_num⟩

/-- Claim C10: a brightness request whose value is a JSON number is
truncated toward zero by the Go int conversion before the range check
inside SetBrightness; a non-integer value is not rejected by the
router. The value 100.9 is sent upstream as brightness 100 and the
value -0.5 as brightness 0, both accepted by the range check. -/
theorem claim_c10_brightness_truncation :
    (∀ (d m : String) (numClients : ℕ) (idx : ℤ) (q : ℚ),
      0 ≤ idx → idx < (numClients : ℤ) →
      handlers.routeControl
          { DeviceID := d, Model := m, Command := "brightness",
            Value := JVal.num q, APIKeyIndex := idx } numClients
        = handlers.RouteOutcome.invoke (handlers.ClientCall.setBrightness d m (goInt q)))
    ∧ (∀ q : ℚ, goInt q = if q < 0 then ⌈q⌉ else ⌊q⌋)
    ∧ goInt (100.9 : ℚ) = 100
    ∧ goInt (-0.5 : ℚ) = 0
    ∧ govee.SetBrightness "AA" "H6159" (goInt (100.9 : ℚ))
        = Except.ok (govee.sendControlCommand "AA" "H6159" "brightness" (govee.CmdValue.int 100))
    ∧ govee.SetBrightness "AA" "H6159" (goInt (-0.5 : ℚ))
        = Except.ok (govee.sendControlCommand "AA" "H6159" "brightness" (govee.CmdValue.int 0)) := by
  have h1009 : goInt (100.9 : ℚ) = 100 := by
    rw [goInt_eq_trunc, if_neg (by norm_num)]
    norm_num
  have hneg : goInt (-0.5 : ℚ) = 0 := by
    rw [goInt_eq_trunc, if_pos (by norm_num)]
    norm_num
  refine ⟨?_, goInt_eq_trunc, h1009, hneg, ?_, ?_⟩
  · intro d m numClients idx q hge hlt
    have hguard : ¬(idx < 0 ∨ (numClients : ℤ) ≤ idx) := by omega
    rw [handlers.routeControl, if_neg hguard]
    rfl
  · rw [h1009]
    rfl
  · rw [hneg]
    rfl

/-- Witness for claim C10: the routing part applied at a concrete
request. -/
theorem claim_c10_witness :
    handlers.routeControl
        { DeviceID := "AA", Model := "H6159", Command := "brightness",
          Value := JVal.num (100.9 : ℚ), APIKeyIndex := 0 } 1
      = handlers.RouteOutcome.invoke (handlers.ClientCall.setBrightness "AA" "H6159"
          (goInt (100.9 : ℚ))) :=
  claim_c10_brightness_truncation.1 "AA" "H6159" 1 0 (100.9 : ℚ) (by norm_num) (by norm_num)

/-- Claim C2 counterexample: on the property list with powerState off
followed by powerState on, the code stops at the first
powerState-bearing map and returns false, while the claim (the scan
returns on equal to true as soon as a powerState string equal to on is
found, and false only when neither property appears) yields true. -/
theorem claim_c2_counterexample :
    handlers.extractIsOn [[("powerState", JVal.str "off")], [("powerState", JVal.str "on")]] = false
    ∧ claimStateSpec [[("powerState", JVal.str "off")], [("powerState", JVal.str "on")]] = true :=
  ⟨rfl, rfl⟩

/-- Claim C2 amended: the scan stops at the first property map that
contains a boolean online value or a string powerState value (online
checked first within a map), returning that boolean, respectively
whether the powerState string equals on case-sensitively; later maps
are not consulted. If no map contains either property the result is
false. The property list brightness 50 then powerState on yields
true. -/
theorem claim_c2_state_extraction :
    (∀ l, handlers.extractIsOn l = (List.findSome? propVerdict l).getD false)
    ∧ handlers.extractIsOn [[("brightness", JVal.num 50)], [("powerState", JVal.str "on")]] = true
    ∧ handlers.extractIsOn [] = false :=
  ⟨extractIsOn_findSome, rfl, rfl⟩

/-- Claim C3: the device aggregation visits the per-account outcomes in
configuration order, tags every device with the index of the account
that returned it, skips a failing account without aborting, and an
empty merge is still a 200 response. With two accounts where account 1
fails and account 0 returns two devices, the result is exactly those
two devices tagged with source index 0 and no request-level error. -/
theorem claim_c3_aggregation :
    (∀ rs, handlers.collectDevices 0 rs
      = ((rs.enum).map fun p =>
          match p.2 with
          | Except.ok ds => ds.map (handlers.toDeviceResponse p.1)
          | Except.error _ => []).flatten)
    ∧ (∀ rs, handlers.HandleGetDevices Method.get rs
        = { status := 200, body := handlers.ResponseBody.devicesJSON (handlers.collectDevices 0 rs) })
    ∧ (∀ e1 e2, handlers.HandleGetDevices Method.get [Except.error e1, Except.error e2]
        = { status := 200, body := handlers.ResponseBody.devicesJSON [] })
    ∧ (∀ d1 d2 e, handlers.HandleGetDevices Method.get [Except.ok [d1, d2], Except.error e]
        = { status := 200,
            body := handlers.ResponseBody.devicesJSON
              [handlers.toDeviceResponse 0 d1, handlers.toDeviceResponse 0 d2] }) :=
  ⟨fun rs => collectDevices_enumFrom 0 rs,
   fun _ => rfl,
   fun _ _ => rfl,
   fun _ _ _ => rfl⟩

/-- Claim C1 counterexample: a toggle request with the wrong method is
answered through http.Error with a bare text/plain body carrying no
success flag or message field, refuting that every response is a JSON
envelope. -/
theorem claim_c1_counterexample :
    handlers.HandleLightbulbToggle Method.get (Except.ok { IsOn := true })
      = { status := 405, body := handlers.ResponseBody.text "Method not allowed" }
    ∧ handlers.bodyHasEnvelope (handlers.ResponseBody.text "Method not allowed") = false :=
  ⟨rfl, rfl⟩

/-- Claim C1 amended: every response of the control and toggle handlers
either carries the JSON envelope with a boolean success flag and a
message string, or is one of the two bare-text guard responses written
by http.Error (405 method-not-allowed, 400 invalid request body);
additionally the device-list success body is a bare JSON array without
the envelope. -/
theorem claim_c1_response_envelope :
    (∀ (numClients : ℕ) (net : govee.ControlRequest → Except String Unit)
        (method : Method) (decoded : Except String handlers.ControlRequest),
      handlers.bodyHasEnvelope (handlers.HandleControlDevice numClients net method decoded).body = true
      ∨ handlers.HandleControlDevice numClients net method decoded
          = handlers.httpError "Method not allowed" 405
      ∨ handlers.HandleControlDevice numClients net method decoded
          = handlers.httpError "Invalid request body" 400)
    ∧ (∀ (method : Method) (decoded : Except String handlers.LightbulbToggleRequest),
      handlers.bodyHasEnvelope (handlers.HandleLightbulbToggle method decoded).body = true
      ∨ handlers.HandleLightbulbToggle method decoded
          = handlers.httpError "Method not allowed" 405
      ∨ handlers.HandleLightbulbToggle method decoded
          = handlers.httpError "Invalid request body" 400)
    ∧ (∀ rs, (handlers.HandleGetDevices Method.get rs).body
        = handlers.ResponseBody.devicesJSON (handlers.collectDevices 0 rs)
      ∧ handlers.bodyHasEnvelope (handlers.HandleGetDevices Method.get rs).body = false) := by
  refine ⟨fun numClients net method decoded => ?_, fun method decoded => ?_,
    fun rs => ⟨rfl, rfl⟩⟩
  · by_cases hm : method = Method.post
    · subst hm
      cases decoded with
      | error e => right; right; rfl
      | ok req =>
        cases hroute : handlers.routeControl req numClients with
        | reject msg =>
          left
          simp [handlers.HandleControlDevice, hroute, handlers.sendErrorResponse,
            handlers.bodyHasEnvelope]
        | invoke call =>
          cases hrun : handlers.runClientCall net call with
          | error e =>
            left
            simp [handlers.HandleControlDevice, hroute, hrun, handlers.sendErrorResponse,
              handlers.bodyHasEnvelope]
          | ok u =>
            left
            simp [handlers.HandleControlDevice, hroute, hrun, handlers.bodyHasEnvelope]
    · right; left
      cases method <;> simp_all [handlers.HandleControlDevice]
  · by_cases hm : method = Method.post
    · subst hm
      cases decoded with
      | error e => right; right; rfl
      | ok req =>
        left
        simp [handlers.HandleLightbulbToggle, handlers.bodyHasEnvelope]
    · right; left
      cases method <;> simp_all [handlers.HandleLightbulbToggle]

/-- Claim C4 counterexample: a stream request while the bridge is
unreachable (a transport failure, not an absent camera) is answered
with status 404, not a 500-class status. -/
theorem claim_c4_counterexample :
    (handlers.HandleGetCameraStream "192.168.1.10" Method.get "front-door"
        (HTTPResult.netErr "connection refused")).status = 404
    ∧ ¬(500 ≤ (handlers.HandleGetCameraStream "192.168.1.10" Method.get "front-door"
        (HTTPResult.netErr "connection refused")).status) :=
  ⟨rfl, by decide⟩

/-- Claim C4 amended: when the upstream is unreachable the camera-list
handler responds 500, but the camera-stream handler responds 404 for
every GetCamera failure, the unreachable bridge included; on the
stream endpoint 404 is not reserved for an absent camera. -/
theorem claim_c4_unreachable_status :
    (∀ host name cause, name ≠ "" →
      handlers.HandleGetCameraStream host Method.get name (HTTPResult.netErr cause)
        = handlers.sendCameraError 404
            ("Camera not found: " ++ ("failed to reach Wyze Bridge: " ++ cause)))
    ∧ (∀ host cause,
      handlers.HandleGetCameras host Method.get (HTTPResult.netErr cause)
        = handlers.sendCameraError 500
            ("Failed to fetch cameras: "
              ++ ("failed to reach Wyze Bridge at " ++ host ++ ": " ++ cause)))
    ∧ (∀ host name out e, name ≠ "" → camera.GetCamera name host out = Except.error e →
      (handlers.HandleGetCameraStream host Method.get name out).status = 404) := by
  refine ⟨fun host name cause hname => ?_, fun host cause => rfl,
    fun host name out e hname herr => ?_⟩
  · simp [handlers.HandleGetCameraStream, hname, camera.GetCamera]
  · simp [handlers.HandleGetCameraStream, hname, herr, handlers.sendCameraError]

/-- Witness for the amended claim C4 at a concrete unreachable-bridge
request. -/
theorem claim_c4_witness :
    handlers.HandleGetCameraStream "192.168.1.10" Method.get "front-door"
        (HTTPResult.netErr "connection refused")
      = handlers.sendCameraError 404
          ("Camera not found: " ++ ("failed to reach Wyze Bridge: " ++ "connection refused")) :=
  claim_c4_unreachable_status.1 "192.168.1.10" "front-door" "connection refused" (by decide)

/-- Claim C7: a pair payload without a pin selects the phase-1
StartPairing client path and one with a non-empty pin selects the
phase-2 FinishPairing path; the handler is a pure function of the one
decoded request, so the gateway keeps no state across the two phases.
The concrete payloads of the claim reach phase 1 and phase 2
respectively. -/
theorem claim_c7_pair_phase :
    handlers.HandleFireTVPair Method.post (Except.ok (handlers.decodePairPayload "10.0.0.5" none))
      = handlers.PairOutcome.callAdapter (firetv.ClientPairCall.StartPairing "10.0.0.5")
    ∧ handlers.HandleFireTVPair Method.post
        (Except.ok (handlers.decodePairPayload "10.0.0.5" (some "123456")))
      = handlers.PairOutcome.callAdapter (firetv.ClientPairCall.FinishPairing "10.0.0.5" "123456")
    ∧ (∀ host, host ≠ "" →
        handlers.HandleFireTVPair Method.post (Except.ok (handlers.decodePairPayload host none))
          = handlers.PairOutcome.callAdapter (firetv.ClientPairCall.StartPairing host))
    ∧ (∀ host pin, host ≠ "" → pin ≠ "" →
        handlers.HandleFireTVPair Method.post
            (Except.ok (handlers.decodePairPayload host (some pin)))
          = handlers.PairOutcome.callAdapter (firetv.ClientPairCall.FinishPairing host pin))
    ∧ firetv.pairPayload (firetv.ClientPairCall.StartPairing "10.0.0.5")
        = { Host := "10.0.0.5", PIN := "" }
    ∧ firetv.pairPayload (firetv.ClientPairCall.FinishPairing "10.0.0.5" "123456")
        = { Host := "10.0.0.5", PIN := "123456" } := by
  refine ⟨rfl, rfl, fun host hh => ?_, fun host pin hh hp => ?_, rfl, rfl⟩
  · simp [handlers.HandleFireTVPair, handlers.decodePairPayload, hh]
  · simp [handlers.HandleFireTVPair, handlers.decodePairPayload, hh, hp]

/-- Witness for claim C7 at a second concrete host. -/
theorem claim_c7_witness :
    handlers.HandleFireTVPair Method.post
        (Except.ok (handlers.decodePairPayload "192.168.1.50" none))
      = handlers.PairOutcome.callAdapter (firetv.ClientPairCall.StartPairing "192.168.1.50") :=
  claim_c7_pair_phase.2.2.1 "192.168.1.50" (by decide)

/-- Claim C9: a pair payload whose pin field is present but equal to
the empty string is treated exactly as if the field were absent and
takes the phase-1 path; a present-but-empty pin never reaches the
phase-2 FinishPairing path. -/
theorem claim_c9_empty_pin :
    (∀ host, handlers.HandleFireTVPair Method.post
        (Except.ok (handlers.decodePairPayload host (some "")))
      = handlers.HandleFireTVPair Method.post
          (Except.ok (handlers.decodePairPayload host none)))
    ∧ (∀ host, handlers.reachesPhase2 (handlers.HandleFireTVPair Method.post
        (Except.ok (handlers.decodePairPayload host (some "")))) = false)
    ∧ (∀ method decoded host pin,
        handlers.HandleFireTVPair method decoded
          = handlers.PairOutcome.callAdapter (firetv.ClientPairCall.FinishPairing host pin) →
        pin ≠ "") := by
  refine ⟨fun host => rfl, fun host => ?_, fun method decoded host pin h => ?_⟩
  · by_cases hh : host = "" <;>
      simp [handlers.HandleFireTVPair, handlers.decodePairPayload, handlers.reachesPhase2, hh]
  · by_cases hm : method = Method.post
    · subst hm
      cases decoded with
      | error e => simp [handlers.HandleFireTVPair] at h
      | ok req =>
        by_cases hhost : req.Host = ""
        · simp [handlers.HandleFireTVPair, hhost] at h
        · by_cases hpin : req.PIN = ""
          · simp [handlers.HandleFireTVPair, hhost, hpin] at h
          · simp [handlers.HandleFireTVPair, hhost, hpin] at h
            rw [← h.2]
            exact hpin
    · cases method <;> simp_all [handlers.HandleFireTVPair]

/-- Witness for claim C9: the never-reaches-phase-2 part applied at a
concrete request that does reach phase 2, showing the hypothesis is
satisfiable. -/
theorem claim_c9_witness : ("123456" : String) ≠ "" :=
  claim_c9_empty_pin.2.2 Method.post
    (Except.ok (handlers.decodePairPayload "10.0.0.5" (some "123456"))) "10.0.0.5" "123456" rfl

/-- Claim C8: the stream URLs of a parsed camera entry are derived
deterministically (parseCameraEntry is a function) from the bridge
host, the URL-safe name and the fixed protocol ports; for bridge host
192.168.1.10 and camera URI front-door the HLS URL is exactly
http://192.168.1.10:8888/front-door/stream.m3u8. -/
theorem claim_c8_stream_urls :
    (∀ (bridgeHost nameURI : String) (info : camera.BridgeCameraInfo)
        (generic : List (String × JVal)),
      (camera.parseCameraEntry nameURI info generic bridgeHost).Streams.HLS
        = "http://" ++ bridgeHost ++ ":" ++ camera.hlsPort ++ "/"
          ++ (if info.NameURI = "" then nameURI else info.NameURI) ++ "/stream.m3u8"
      ∧ (camera.parseCameraEntry nameURI info generic bridgeHost).Streams.RTSP
        = "rtsp://" ++ bridgeHost ++ ":" ++ camera.rtspPort ++ "/"
          ++ (if info.NameURI = "" then nameURI else info.NameURI)
      ∧ (camera.parseCameraEntry nameURI info generic bridgeHost).Streams.WebRTC
        = "http://" ++ bridgeHost ++ ":" ++ camera.webrtcPort ++ "/"
          ++ (if info.NameURI = "" then nameURI else info.NameURI) ++ "/"
      ∧ (camera.parseCameraEntry nameURI info generic bridgeHost).StreamURL
        = (camera.parseCameraEntry nameURI info generic bridgeHost).Streams.HLS)
    ∧ (camera.parseCameraEntry "front-door"
          { NameURI := "", Nickname := "", ModelName := "", ProductModel := "",
            Connected := false, Enabled := false } [] "192.168.1.10").Streams.HLS
        = "http://192.168.1.10:8888/front-door/stream.m3u8" :=
  ⟨fun bridgeHost nameURI info generic => ⟨rfl, rfl, rfl, rfl⟩, by decide⟩

end Artemis





